import Mathlib

/-!
Shallow embedding of the fledermaus-tracking frontend core:
the analysis-request orchestration and results pipeline.

Sources embedded here:
- `src/fledermaus-tracking-frontend/src/pages/App.jsx` (the `useVideoAnalysis`
  hook variants: the always-dummy first variant and the `REACT_APP_USE_REAL_API`
  variant with fallback-to-dummy on API failure),
- `src/fledermaus-tracking-frontend/src/components/UploadSection.jsx`
  (`handleAnalyze`, the segment range inputs, the disabled analyze button),
- `src/unnamed/part_001` (`Settings.handleChange` debounce),
- `src/fledermaus-tracking-frontend/src/utils/export.js` (`exportAsCSV`).

Numbers are modelled as ℚ (JS numbers; no claim here depends on binary
floating-point rounding), machine randomness `Math.random()` as an explicit
stream `q : ℕ → ℚ` of draws in `[0, 1)`, indexed by call order.
-/

namespace Fledermaus

/-- Alert types used by `setAlert({message, type})` throughout the frontend. -/
inductive AlertType where
  | success
  | warning
  | info
  | error
  deriving DecidableEq, Repr

/-- An `AlertNotification` as passed to `setAlert` : a message and a type. -/
structure Alert where
  message : String
  type : AlertType
  deriving DecidableEq, Repr

/-- A 2-D point `{x, y}` (start/end points of the detected trajectory). -/
structure Point where
  x : ℤ
  y : ℤ
  deriving DecidableEq, Repr

/-- One element of `positions`: `{frame, x, y, width, height, timestamp}`,
field order as in the object literals of `App.jsx`. -/
structure Position where
  frame : ℕ
  x : ℤ
  y : ℤ
  width : ℤ
  height : ℤ
  timestamp : String
  deriving DecidableEq, Repr

/-- One element of `movementsPerFrame`: `{frame, count}`. -/
structure Movement where
  frame : ℕ
  count : ℤ
  deriving DecidableEq, Repr

/-- The result document. `fps` and `videoDuration` are `Option` because the
first (always-dummy) hook variant's dummy object carries neither field. -/
structure AnalysisResult where
  totalFrames : ℤ
  batDetected : Bool
  detectionCount : ℤ
  startPoint : Point
  endPoint : Point
  analysisTime : String
  fps : Option ℚ
  videoDuration : Option ℚ
  positions : List Position
  movementsPerFrame : List Movement
  deriving DecidableEq, Repr

/-! ## ExportEngine (`src/fledermaus-tracking-frontend/src/utils/export.js`) -/

/-- The list `Object.values(row)` for a position row: the field values in insertion
order, stringified as `Array.prototype.join` does. -/
def objectValues (p : Position) : List String :=
  [toString p.frame, toString p.x, toString p.y, toString p.width,
   toString p.height, p.timestamp]

/-- The `exportAsCSV` body: `data.map(row => Object.values(row).join(",")).join("\n")`.
No header row is built anywhere in the function. -/
def exportAsCSV (data : List Position) : String :=
  String.intercalate "\n" (data.map (fun row => String.intercalate "," (objectValues row)))

/-! ## SegmentSelector (`UploadSection.jsx` range inputs)

The sliders are `<input type="range" min="0" max={duration}>`: the DOM value
is always inside `[min, max]`, so the value delivered to `onChange` is the
raw position clamped into `[0, duration]`. -/

/-- The value a range input with `min="0"` and `max={duration}` can deliver:
the requested `t` clamped into `[lo, hi]`. -/
def rangeClamp (lo hi t : ℚ) : ℚ := max lo (min t hi)

/-! ## Data model of the orchestration state -/

inductive Effect where
  | remoteCall
  | delay (ms : ℕ)
  deriving DecidableEq, Repr

/-- Outcome of the single remote call `analyzeVideoAPI` when it is issued:
either the parsed `result.data` or a thrown error message. -/
inductive RemoteOutcome where
  | ok (r : AnalysisResult)
  | err (msg : String)
  deriving DecidableEq, Repr

/-- What `analyzeVideo` hands back to its awaiter. -/
inductive Ret where
  | returned (r : AnalysisResult)
  | threw (msg : String)
  deriving DecidableEq, Repr

/-- The state owned by the `useVideoAnalysis` hook (`loading`, `results`)
together with the `alert` slot of the caller (`setAlert` prop). -/
structure HookStore where
  loading : Bool
  results : Option AnalysisResult
  alert : Option Alert
  deriving DecidableEq, Repr

/-- One complete run of `analyzeVideo`: final store, the effect trace
(remote call issued / `setTimeout` delay awaited), every alert emitted by
`setAlert` in order, and the returned or thrown value. -/
structure RunResult where
  store : HookStore
  effects : List Effect
  alerts : List Alert
  ret : Ret
  deriving DecidableEq, Repr

/-! ## Randomness: `Math.floor(Math.random() * n)` -/

/-- Model of `Math.floor(x)` on a JS number, over ℚ. -/
def jsFloor (x : ℚ) : ℤ := Int.floor x

/-- Model of `Math.floor(Math.random() * n)` where `q` is the value drawn by this
call to `Math.random()`. -/
def jsRandomInt (q : ℚ) (n : ℕ) : ℤ := jsFloor (q * n)

/-- Model of `String(n).padStart(2, '0')`. -/
def pad2 (n : ℕ) : String := if n < 10 then "0" ++ toString n else toString n

/-- The timestamp literal of a dummy position for frame `n`. -/
def frameTimestamp (n : ℕ) : String := "00:00:" ++ pad2 n

/-! ## The dummy result of the `REACT_APP_USE_REAL_API` hook variant
(`App.jsx`, third chunk, lines 116-137). The stream `q` enumerates the
`Math.random()` calls in evaluation order of the object literal:
draw 0 `totalFrames`, 1 `batDetected`, 2 `detectionCount`, 3-4 `startPoint`,
5-6 `endPoint`, 7 `videoDuration`, 8 the `positions` length, then 4 draws
per position element, then the `movementsPerFrame` length, then 1 draw per
movement element. -/

/-- The array `positions: Array.from({length: len}, (_, i) => ({frame: i+1, x: rnd(100),
y: rnd(100), width: rnd(20)+10, height: rnd(30)+15, timestamp: ...}))`,
drawing from `q` starting at index `base`. -/
def dummyPositions (q : ℕ → ℚ) (base len : ℕ) : List Position :=
  (List.range len).map (fun i =>
    { frame := i + 1
      x := jsRandomInt (q (base + 4 * i)) 100
      y := jsRandomInt (q (base + 4 * i + 1)) 100
      width := jsRandomInt (q (base + 4 * i + 2)) 20 + 10
      height := jsRandomInt (q (base + 4 * i + 3)) 30 + 15
      timestamp := frameTimestamp (i + 1) })

/-- The array `movementsPerFrame: Array.from({length: len}, (_, i) => ({frame: i+1,
count: rnd(5)}))`, drawing from `q` starting at index `base`. -/
def dummyMovements (q : ℕ → ℚ) (base len : ℕ) : List Movement :=
  (List.range len).map (fun i =>
    { frame := i + 1
      count := jsRandomInt (q (base + i)) 5 })

/-- The length argument of `Array.from({length: x})`: `ToLength` clamps a
negative number to 0, which `Int.toNat` does for us. -/
def arrayFromLen (x : ℤ) : ℕ := x.toNat

/-- The enhanced dummy result object of `App.jsx` lines 116-137. -/
def dummyResult (q : ℕ → ℚ) : AnalysisResult :=
  let posLen : ℕ := arrayFromLen (jsRandomInt (q 8) 50) + 10
  let movBase : ℕ := 9 + 4 * posLen
  let movLen : ℕ := arrayFromLen (jsRandomInt (q movBase) 100) + 50
  { totalFrames := jsRandomInt (q 0) 500 + 100
    batDetected := decide ((3 : ℚ) / 10 < q 1)
    detectionCount := jsRandomInt (q 2) 50 + 10
    startPoint := { x := jsRandomInt (q 3) 50 + 10, y := jsRandomInt (q 4) 50 + 20 }
    endPoint := { x := jsRandomInt (q 5) 50 + 60, y := jsRandomInt (q 6) 50 + 70 }
    analysisTime := "00:01:23"
    fps := some 30
    videoDuration := some (((jsRandomInt (q 7) 500 + 100 : ℤ) : ℚ) / 30)
    positions := dummyPositions q 9 posLen
    movementsPerFrame := dummyMovements q (movBase + 1) movLen }

/-! ## The dummy result of the first hook variant
(`App.jsx`, second chunk, lines 35-54): fixed header fields, 100 positions
with random x/y (2 draws each), 100 movements with random count; no `fps`
and no `videoDuration` field. -/

def dummyPositionsV1 (q : ℕ → ℚ) : List Position :=
  (List.range 100).map (fun i =>
    { frame := i + 1
      x := jsRandomInt (q (2 * i)) 100
      y := jsRandomInt (q (2 * i + 1)) 100
      width := 15
      height := 30
      timestamp := frameTimestamp (i + 1) })

def dummyMovementsV1 (q : ℕ → ℚ) : List Movement :=
  (List.range 100).map (fun i =>
    { frame := i + 1
      count := jsRandomInt (q (200 + i)) 10 })

def dummyResultV1 (q : ℕ → ℚ) : AnalysisResult :=
  { totalFrames := 100
    batDetected := true
    detectionCount := 42
    startPoint := { x := 10, y := 20 }
    endPoint := { x := 80, y := 90 }
    analysisTime := "00:01:23"
    fps := none
    videoDuration := none
    positions := dummyPositionsV1 q
    movementsPerFrame := dummyMovementsV1 q }

/-! ## AnalysisOrchestrator: the `analyzeVideo` runs -/

/-- Alert messages emitted by `analyzeVideo` (third hook variant). -/
def backendSuccessMsg : String := "Analyse erfolgreich mit Backend abgeschlossen"

def fallbackWarningMsg (m : String) : String :=
  "Backend nicht verfügbar, verwende Demo-Daten: " ++ m

def demoSuccessMsg : String := "Demo-Analyse erfolgreich abgeschlossen"

/-- Alert message of the first hook variant's success path. -/
def successMsgV1 : String := "Analyse erfolgreich abgeschlossen"

/-- The check `process.env.REACT_APP_USE_REAL_API === 'true'`. -/
def envIsTrue (env : Option String) : Prop := env = some "true"

instance (env : Option String) : Decidable (envIsTrue env) := by
  unfold envIsTrue
  infer_instance

/-- One run of `analyzeVideo` (third hook variant, `App.jsx` lines 81-150):
`setLoading(true)`; if `useRealAPI`, issue the remote call — on success store
the API result and alert success, on failure alert a warning naming the
reason and fall through to the dummy path; the dummy path awaits a fixed
1500ms timeout, stores the freshly generated dummy result and alerts
success. The `finally` clears `loading` on every path. The outer `catch`
(error alert, rethrow) guards only exceptions of the body itself, none of
which this model's operations raise, so every modelled run returns. -/
def analyzeVideoRun (env : Option String) (remote : RemoteOutcome) (q : ℕ → ℚ)
    (s : HookStore) : RunResult :=
  let s1 : HookStore := { s with loading := true }
  if envIsTrue env then
    match remote with
    | RemoteOutcome.ok r =>
        { store := { s1 with results := some r
                             alert := some ⟨backendSuccessMsg, AlertType.success⟩
                             loading := false }
          effects := [Effect.remoteCall]
          alerts := [⟨backendSuccessMsg, AlertType.success⟩]
          ret := Ret.returned r }
    | RemoteOutcome.err m =>
        let d := dummyResult q
        { store := { s1 with results := some d
                             alert := some ⟨demoSuccessMsg, AlertType.success⟩
                             loading := false }
          effects := [Effect.remoteCall, Effect.delay 1500]
          alerts := [⟨fallbackWarningMsg m, AlertType.warning⟩,
                     ⟨demoSuccessMsg, AlertType.success⟩]
          ret := Ret.returned d }
  else
    let d := dummyResult q
    { store := { s1 with results := some d
                         alert := some ⟨demoSuccessMsg, AlertType.success⟩
                         loading := false }
      effects := [Effect.delay 1500]
      alerts := [⟨demoSuccessMsg, AlertType.success⟩]
      ret := Ret.returned d }

/-- One run of the first hook variant's `analyzeVideo` (`App.jsx` lines
28-68): always awaits the fixed 1500ms timeout, stores the dummy result,
alerts success; `finally` clears `loading`. -/
def analyzeVideoRunV1 (q : ℕ → ℚ) (s : HookStore) : RunResult :=
  let s1 : HookStore := { s with loading := true }
  let d := dummyResultV1 q
  { store := { s1 with results := some d
                       alert := some ⟨successMsgV1, AlertType.success⟩
                       loading := false }
    effects := [Effect.delay 1500]
    alerts := [⟨successMsgV1, AlertType.success⟩]
    ret := Ret.returned d }

/-! ## Response routing (`App.jsx` lines 93-97)

When a remote call resolves, the hook runs `setResults(apiResult)` and
`setAlert(success)` unconditionally: there is no request id stored in the
code and no id comparison guarding `setResults`. -/

/-- The continuation executed when a remote response for some in-flight
request arrives: lines 95-96 of `App.jsx`, with no staleness check. -/
def applyRemoteSuccess (s : HookStore) (r : AnalysisResult) : HookStore :=
  { s with results := some r
           alert := some ⟨backendSuccessMsg, AlertType.success⟩ }

/-- The interleaving of the "last request wins" scenario: request 1 is
dispatched, request 2 is dispatched before request 1 resolves, request 2's
response `r₂` arrives first and request 1's response `r₁` arrives last.
Each arrival runs the unconditional response continuation. -/
def lastRequestWinsScenario (s : HookStore) (r₁ r₂ : AnalysisResult) : HookStore :=
  applyRemoteSuccess (applyRemoteSuccess s r₂) r₁

/-! ## UploadSection (`UploadSection.jsx`) -/

/-- The state of `UploadSection` together with the hook state it consumes
and the two props it drives (`setResults` and `switchToResults` from
`MainContent`). -/
structure UState where
  videoFile : Option String
  startTime : ℚ
  endTime : ℚ
  duration : ℚ
  currentTime : ℚ
  loading : Bool
  alert : Option Alert
  results : Option AnalysisResult
  pageResults : Option AnalysisResult
  activeSection : String
  deriving DecidableEq, Repr

/-- The hook-owned slice of the state (`loading`, `results`) plus the
`alert` slot the hook writes through `setAlert`. -/
def UState.hookStore (s : UState) : HookStore :=
  { loading := s.loading, results := s.results, alert := s.alert }

/-- The start-time slider handler: `onChange` of the range input with
`min="0" max={duration}` calls `setStartTime(parseFloat(value))`, the
delivered value being clamped to the input's range. -/
def setStartTime (s : UState) (t : ℚ) : UState :=
  { s with startTime := rangeClamp 0 s.duration t }

/-- The end-time slider handler, symmetric to `setStartTime`. -/
def setEndTime (s : UState) (t : ℚ) : UState :=
  { s with endTime := rangeClamp 0 s.duration t }

/-- Validation alert messages of `handleAnalyze`. -/
def noFileMsg : String := "Bitte wählen Sie zuerst eine Videodatei aus."

def badSegmentMsg : String := "Startzeit muss kleiner als Endzeit sein."

/-- Alert message of `handleAnalyze`'s catch block. -/
def analysisFailedMsg : String := "Analyse fehlgeschlagen."

/-- Outcome of a click-driven run of `UploadSection`. -/
structure ClickResult where
  state : UState
  effects : List Effect
  alerts : List Alert
  deriving DecidableEq, Repr

/-- The handler `handleAnalyze` (`UploadSection.jsx` lines 58-78): refuse with a warning
alert if no file is selected, refuse with a warning alert if
`startTime >= endTime`, otherwise await `analyzeVideo` and, when it returns
a (truthy) result, publish it with `setResults` and `switchToResults`; if
`analyzeVideo` throws, alert an error. -/
def handleAnalyzeRun (env : Option String) (remote : RemoteOutcome) (q : ℕ → ℚ)
    (s : UState) : ClickResult :=
  if s.videoFile = none then
    { state := { s with alert := some ⟨noFileMsg, AlertType.warning⟩ }
      effects := []
      alerts := [⟨noFileMsg, AlertType.warning⟩] }
  else if s.endTime ≤ s.startTime then
    { state := { s with alert := some ⟨badSegmentMsg, AlertType.warning⟩ }
      effects := []
      alerts := [⟨badSegmentMsg, AlertType.warning⟩] }
  else
    let R := analyzeVideoRun env remote q s.hookStore
    match R.ret with
    | Ret.returned r =>
        { state := { s with loading := R.store.loading
                            results := R.store.results
                            alert := R.store.alert
                            pageResults := some r
                            activeSection := "results" }
          effects := R.effects
          alerts := R.alerts }
    | Ret.threw _ =>
        { state := { s with loading := R.store.loading
                            results := R.store.results
                            alert := some ⟨analysisFailedMsg, AlertType.error⟩ }
          effects := R.effects
          alerts := R.alerts ++ [⟨analysisFailedMsg, AlertType.error⟩] }

/-- A click on the analyze button: the button carries
`disabled={!videoFile || loading}`, so a click reaches `handleAnalyze` only
when a file is selected and no request is in flight. -/
def clickAnalyze (env : Option String) (remote : RemoteOutcome) (q : ℕ → ℚ)
    (s : UState) : ClickResult :=
  if s.videoFile = none ∨ s.loading = true then
    { state := s, effects := [], alerts := [] }
  else
    handleAnalyzeRun env remote q s

/-! ## SensitivitySettingsStore (`src/unnamed/part_001`, `Settings`) -/

/-- The `Settings` component state: `tempSensitivity` (pending value),
`sensitivity` (committed value, the `setSensitivity` prop's backing state)
and `debounceTimeout.current`, a pending timer modelled as its fire time
and captured value. -/
structure SettingsState where
  tempSensitivity : ℚ
  sensitivity : ℚ
  debounceTimeout : Option (ℕ × ℚ)
  deriving DecidableEq, Repr

/-- The handler `handleChange` (`part_001` lines 43-54) at wall-clock time `now`:
`setTempSensitivity(value)`, then `clearTimeout` of any pending timer and
`setTimeout(() => setSensitivity(value), 300)`. -/
def handleChange (s : SettingsState) (now : ℕ) (v : ℚ) : SettingsState :=
  { s with tempSensitivity := v
           debounceTimeout := some (now + 300, v) }

/-- Fire the pending timer if its deadline has passed by time `now`:
the timeout callback runs `setSensitivity(v)` and the timer is spent.
Returns the state paired with the commits it appended. -/
def fireDue (p : SettingsState × List ℚ) (now : ℕ) : SettingsState × List ℚ :=
  match p.1.debounceTimeout with
  | some (tfire, v) =>
      if tfire ≤ now then
        ({ p.1 with sensitivity := v, debounceTimeout := none }, p.2 ++ [v])
      else p
  | none => p

/-- Process one input event `(time, value)`: any timer already due fires
first (the event loop runs due timeouts before later input), then
`handleChange` runs for the event. -/
def debounceStep (p : SettingsState × List ℚ) (ev : ℕ × ℚ) : SettingsState × List ℚ :=
  let p1 := fireDue p ev.1
  (handleChange p1.1 ev.1 ev.2, p1.2)

/-- After the last input, time passes and the sole pending timer (if any)
fires. -/
def flushTimer (p : SettingsState × List ℚ) : SettingsState × List ℚ :=
  match p.1.debounceTimeout with
  | some (_, v) => ({ p.1 with sensitivity := v, debounceTimeout := none }, p.2 ++ [v])
  | none => p

/-- Run the settings view over a time-ordered list of input events and let
the final quiet period elapse. The second component collects every commit
(`setSensitivity` call) in order. -/
def runSettings (s₀ : SettingsState) (events : List (ℕ × ℚ)) : SettingsState × List ℚ :=
  flushTimer (events.foldl debounceStep (s₀, []))

/-! ## Concrete fixtures used by witnesses and counterexamples -/

/-- A hook store before any analysis. -/
def emptyStore : HookStore := { loading := false, results := none, alert := none }

/-- An arbitrary previously stored result document. -/
def prevResult : AnalysisResult :=
  { totalFrames := 7
    batDetected := false
    detectionCount := 3
    startPoint := { x := 1, y := 1 }
    endPoint := { x := 2, y := 2 }
    analysisTime := "00:00:07"
    fps := some 25
    videoDuration := some 7
    positions := []
    movementsPerFrame := [] }

/-- A hook store holding a previous result. -/
def storeWithPrev : HookStore := { loading := false, results := some prevResult, alert := none }

/-- A concrete run of `analyzeVideo` with the real API active and the
remote call failing, against a store holding a previous result. -/
def failedRun : RunResult :=
  analyzeVideoRun (some "true") (RemoteOutcome.err "Backend server is not available")
    (fun _ => 0) storeWithPrev

/-- The result document of the first overlapping request in the
"last request wins" scenario. -/
def resultOne : AnalysisResult := { prevResult with detectionCount := 1 }

/-- The result document of the second overlapping request. -/
def resultTwo : AnalysisResult := { prevResult with detectionCount := 2 }

/-- The upload view with a 60-second video selected, default segment
`(0, 60)`, idle. -/
def segDemoState : UState :=
  { videoFile := some "video.mp4"
    startTime := 0
    endTime := 60
    duration := 60
    currentTime := 0
    loading := false
    alert := none
    results := none
    pageResults := none
    activeSection := "upload" }

/-- The upload view while a request is in flight. -/
def loadingState : UState := { segDemoState with loading := true }

/-- The upload view with no file selected. -/
def noFileState : UState := { segDemoState with videoFile := none }

/-- The settings view before the burst, committed value `0.5`, no pending
timer. -/
def settingsInit : SettingsState :=
  { tempSensitivity := 1 / 2, sensitivity := 1 / 2, debounceTimeout := none }

/-- First of the 10 sensitivity inputs fired 10ms apart. -/
def burstHead : ℕ × ℚ := (0, 1 / 10)

/-- The remaining 9 sensitivity inputs, 10ms apart, values rising to `1`. -/
def burstTail : List (ℕ × ℚ) :=
  [(10, 2 / 10), (20, 3 / 10), (30, 4 / 10), (40, 5 / 10), (50, 6 / 10),
   (60, 7 / 10), (70, 8 / 10), (80, 9 / 10), (90, 1)]

/-! ## Helper lemmas -/

theorem jsRandomInt_nonneg (q : ℚ) (n : ℕ) (h : 0 ≤ q) : 0 ≤ jsRandomInt q n := by
  unfold jsRandomInt jsFloor
  exact Int.floor_nonneg.mpr (mul_nonneg h (by positivity))

theorem jsRandomInt_lt (q : ℚ) (n : ℕ) (h1 : q < 1) (h0 : 0 < n) :
    jsRandomInt q n < n := by
  unfold jsRandomInt jsFloor
  rw [Int.floor_lt]
  push_cast
  calc q * n < 1 * n := by
        exact mul_lt_mul_of_pos_right h1 (by exact_mod_cast h0)
    _ = n := one_mul _

theorem jsRandomInt_zero (n : ℕ) : jsRandomInt 0 n = 0 := by
  unfold jsRandomInt jsFloor
  rw [zero_mul]
  exact Int.floor_zero

theorem dummyPositions_length (q : ℕ → ℚ) (base len : ℕ) :
    (dummyPositions q base len).length = len := by
  simp [dummyPositions]

theorem dummyPositions_chain (q : ℕ → ℚ) (base len : ℕ) :
    List.Chain' (fun a b => a.frame < b.frame) (dummyPositions q base len) := by
  unfold dummyPositions
  rw [List.chain'_map]
  refine List.Chain'.imp ?_ ((List.pairwise_lt_range len).chain')
  intro a b h
  exact Nat.succ_lt_succ h

theorem dummyMovements_chain (q : ℕ → ℚ) (base len : ℕ) :
    List.Chain' (fun a b => a.frame < b.frame) (dummyMovements q base len) := by
  unfold dummyMovements
  rw [List.chain'_map]
  refine List.Chain'.imp ?_ ((List.pairwise_lt_range len).chain')
  intro a b h
  exact Nat.succ_lt_succ h

/-- Folding `debounceStep` over a burst whose consecutive gaps are all
under 300ms never fires the pending timer: the fold just keeps replacing
the pending value and timer with the newest input's. -/
theorem burst_fold (es : List (ℕ × ℚ)) :
    ∀ (e : ℕ × ℚ) (s : SettingsState) (commits : List ℚ),
    s.tempSensitivity = e.2 →
    s.debounceTimeout = some (e.1 + 300, e.2) →
    List.Chain (fun a b => b.1 < a.1 + 300) e es →
    es.foldl debounceStep (s, commits) =
      ({ s with tempSensitivity := (es.getLastD e).2
                debounceTimeout := some ((es.getLastD e).1 + 300, (es.getLastD e).2) },
       commits) := by
  induction es with
  | nil =>
      intro e s commits htemp ht _
      simp only [List.foldl_nil, List.getLastD_nil]
      cases s
      simp_all
  | cons f fs ih =>
      intro e s commits htemp ht hch
      rw [List.chain_cons] at hch
      have hgap : f.1 < e.1 + 300 := hch.1
      have hstep : debounceStep (s, commits) f = (handleChange s f.1 f.2, commits) := by
        unfold debounceStep fireDue
        rw [ht]
        simp only []
        rw [if_neg (by omega)]
      rw [List.foldl_cons, hstep]
      rw [ih f (handleChange s f.1 f.2) commits rfl rfl hch.2]
      simp only [List.getLastD_cons]
      cases s
      simp [handleChange]

/-! ## Claim theorems -/

/-- C1: while an analysis request is in flight (`loading = true`), a second
dispatch attempt (a click on the analyze button, which carries
`disabled={!videoFile || loading}`) is rejected immediately: the state is
unchanged and no effect — in particular no second remote call — is
started. -/
theorem claim_C1 (env : Option String) (remote : RemoteOutcome) (q : ℕ → ℚ)
    (s : UState) (h : s.loading = true) :
    clickAnalyze env remote q s = { state := s, effects := [], alerts := [] } := by
  unfold clickAnalyze
  rw [if_pos (Or.inr h)]

/-- Witness for C1 at a concrete in-flight state. -/
theorem claim_C1_witness :
    loadingState.loading = true ∧
    clickAnalyze (some "true") (RemoteOutcome.err "ECONNREFUSED") (fun _ => 0) loadingState =
      { state := loadingState, effects := [], alerts := [] } :=
  ⟨rfl, claim_C1 (some "true") (RemoteOutcome.err "ECONNREFUSED") (fun _ => 0) loadingState rfl⟩

/-- C3: when no media file is selected or `start >= end`, `handleAnalyze`
refuses the dispatch: it emits exactly one warning alert, issues no effect
(no network call, no fallback delay), and changes no state besides the
alert slot. -/
theorem claim_C3 (env : Option String) (remote : RemoteOutcome) (q : ℕ → ℚ)
    (s : UState) (h : s.videoFile = none ∨ s.endTime ≤ s.startTime) :
    ∃ m, handleAnalyzeRun env remote q s =
      { state := { s with alert := some ⟨m, AlertType.warning⟩ }
        effects := []
        alerts := [⟨m, AlertType.warning⟩] } := by
  unfold handleAnalyzeRun
  by_cases hv : s.videoFile = none
  · exact ⟨noFileMsg, by rw [if_pos hv]⟩
  · have hse : s.endTime ≤ s.startTime := h.resolve_left hv
    exact ⟨badSegmentMsg, by rw [if_neg hv, if_pos hse]⟩

/-- Witness for C3 at a concrete state with no file selected. -/
theorem claim_C3_witness :
    (noFileState.videoFile = none ∨ noFileState.endTime ≤ noFileState.startTime) ∧
    ∃ m, handleAnalyzeRun (some "true") (RemoteOutcome.err "ECONNREFUSED") (fun _ => 0) noFileState =
      { state := { noFileState with alert := some ⟨m, AlertType.warning⟩ }
        effects := []
        alerts := [⟨m, AlertType.warning⟩] } :=
  ⟨Or.inl rfl,
   claim_C3 (some "true") (RemoteOutcome.err "ECONNREFUSED") (fun _ => 0) noFileState (Or.inl rfl)⟩

/-- C7 counterexample: the claim says `setStart`/`setEnd` never produce a
segment with `start >= end`. On the state with segment `(0, 60)` and
duration 60, `setStart(70)` clamps to 60 and yields `start = end = 60`,
so `start >= end` does occur. -/
theorem claim_C7_counterexample :
    (setStartTime segDemoState 70).startTime = 60 ∧
    (setStartTime segDemoState 70).endTime ≤ (setStartTime segDemoState 70).startTime := by
  decide

/-- C7 amended: `setStart`/`setEnd` do clamp their argument to
`[0, duration]` (whenever the duration is nonnegative), but they do not
prevent `start >= end`; that condition is instead rejected at dispatch. -/
theorem claim_C7_amended_thm (s : UState) (t u : ℚ) (hd : 0 ≤ s.duration) :
    0 ≤ (setStartTime s t).startTime ∧ (setStartTime s t).startTime ≤ s.duration ∧
    0 ≤ (setEndTime s u).endTime ∧ (setEndTime s u).endTime ≤ s.duration := by
  simp only [setStartTime, setEndTime, rangeClamp]
  exact ⟨le_max_left _ _, max_le hd (min_le_right _ _),
         le_max_left _ _, max_le hd (min_le_right _ _)⟩

/-- Witness for the amended C7 at concrete out-of-range inputs. -/
theorem claim_C7_amended_witness :
    0 ≤ segDemoState.duration ∧
    (0 ≤ (setStartTime segDemoState 70).startTime ∧
     (setStartTime segDemoState 70).startTime ≤ segDemoState.duration ∧
     0 ≤ (setEndTime segDemoState (-5)).endTime ∧
     (setEndTime segDemoState (-5)).endTime ≤ segDemoState.duration) :=
  ⟨by decide, claim_C7_amended_thm segDemoState 70 (-5) (by decide)⟩

/-- C8 counterexample: the claim says `exportCSV` emits a header row built
from the field names before the data rows. On the spec's own example
position, the output is the single data row with no header row preceding
it. -/
theorem claim_C8_counterexample :
    exportAsCSV [{ frame := 1, x := 5, y := 6, width := 7, height := 8, timestamp := "00:00:01" }] =
      "1,5,6,7,8,00:00:01" ∧
    "1,5,6,7,8,00:00:01" ≠
      "frame,x,y,width,height,timestamp" ++ "\n" ++ "1,5,6,7,8,00:00:01" := by
  constructor
  · rfl
  · decide

/-- C8 amended: `exportAsCSV` flattens the rows to comma-joined values in
field order with no header row, and embedded delimiters are not quoted or
escaped (a timestamp containing a comma merges into the surrounding
columns). -/
theorem claim_C8_amended_thm :
    exportAsCSV [{ frame := 1, x := 5, y := 6, width := 7, height := 8, timestamp := "00:00:01" }] =
      "1,5,6,7,8,00:00:01" ∧
    exportAsCSV [{ frame := 1, x := 5, y := 6, width := 7, height := 8, timestamp := "a,b" }] =
      "1,5,6,7,8,a,b" ∧
    exportAsCSV
      [{ frame := 1, x := 5, y := 6, width := 7, height := 8, timestamp := "00:00:01" },
       { frame := 2, x := 9, y := 10, width := 11, height := 12, timestamp := "00:00:02" }] =
      "1,5,6,7,8,00:00:01" ++ "\n" ++ "2,9,10,11,12,00:00:02" := by
  refine ⟨rfl, rfl, ?_⟩
  rfl

/-- C9: on every exit path of both `analyzeVideo` variants — remote
success, fallback after remote failure, and the demo path — the `finally`
block clears the in-flight `loading` flag. -/
theorem claim_C9 (env : Option String) (remote : RemoteOutcome) (q : ℕ → ℚ)
    (s : HookStore) :
    (analyzeVideoRun env remote q s).store.loading = false ∧
    (analyzeVideoRunV1 q s).store.loading = false := by
  constructor
  · unfold analyzeVideoRun
    by_cases henv : envIsTrue env
    · rw [if_pos henv]
      cases remote <;> rfl
    · rw [if_neg henv]
  · rfl

/-- C10: whenever `REACT_APP_USE_REAL_API` is not the string `true`,
`analyzeVideo` issues no remote call: it awaits the fixed 1500ms delay,
stores and returns the synthesized dummy result, and raises a success
alert — the demo path is the unconditional default. -/
theorem claim_C10 (env : Option String) (remote : RemoteOutcome) (q : ℕ → ℚ)
    (s : HookStore) (h : env ≠ some "true") :
    analyzeVideoRun env remote q s =
      { store := { loading := false
                   results := some (dummyResult q)
                   alert := some ⟨demoSuccessMsg, AlertType.success⟩ }
        effects := [Effect.delay 1500]
        alerts := [⟨demoSuccessMsg, AlertType.success⟩]
        ret := Ret.returned (dummyResult q) } := by
  unfold analyzeVideoRun
  rw [if_neg (show ¬ envIsTrue env from h)]

/-- Witness for C10 with the variable unset. -/
theorem claim_C10_witness :
    (none : Option String) ≠ some "true" ∧
    analyzeVideoRun none (RemoteOutcome.err "ECONNREFUSED") (fun _ => 0) emptyStore =
      { store := { loading := false
                   results := some (dummyResult (fun _ => 0))
                   alert := some ⟨demoSuccessMsg, AlertType.success⟩ }
        effects := [Effect.delay 1500]
        alerts := [⟨demoSuccessMsg, AlertType.success⟩]
        ret := Ret.returned (dummyResult (fun _ => 0)) } :=
  ⟨by decide,
   claim_C10 none (RemoteOutcome.err "ECONNREFUSED") (fun _ => 0) emptyStore (by decide)⟩

/-- C2 counterexample: the claim says that in the interleaving "request 1
dispatched, request 2 dispatched before 1 resolves, response 1 arrives
after response 2" the stale response 1 is discarded and the stored result
reflects only request 2's outcome. The code assigns no request ids and its
response continuation stores unconditionally, so in exactly that
interleaving the stored result is request 1's document, not request
2's. -/
theorem claim_C2_counterexample :
    (lastRequestWinsScenario emptyStore resultOne resultTwo).results = some resultOne ∧
    (lastRequestWinsScenario emptyStore resultOne resultTwo).results ≠ some resultTwo ∧
    resultOne ≠ resultTwo := by
  decide

/-- C2 amended: the code assigns no request ids; every arriving response
mutates the shared result state unconditionally, so after any sequence of
response arrivals the stored document is the last-arriving response's
(last response wins, not last request). -/
theorem claim_C2_amended_thm (s : HookStore) (r : AnalysisResult)
    (rs : List AnalysisResult) :
    ((r :: rs).foldl applyRemoteSuccess s).results = some (rs.getLastD r) := by
  induction rs generalizing s r with
  | nil => rfl
  | cons a as ih =>
      rw [List.foldl_cons, List.getLastD_cons]
      exact ih (applyRemoteSuccess s r) a

/-- C4 counterexample: the claim says a remote-call failure with fallback
disabled ends in `Failed` with an error alert, no result document, and the
previous result untouched. The code has no fallback-disabled configuration:
in the only configuration that issues remote calls at all
(`REACT_APP_USE_REAL_API = 'true'`), a failing remote call replaces the
previous result with a synthesized document, raises warning and success
alerts but no error alert, and returns normally instead of propagating the
failure. -/
theorem claim_C4_counterexample :
    failedRun.store.results = some (dummyResult (fun _ => 0)) ∧
    failedRun.store.results ≠ some prevResult ∧
    failedRun.store.results ≠ none ∧
    (∀ a ∈ failedRun.alerts, a.type ≠ AlertType.error) ∧
    (∃ a ∈ failedRun.alerts, a.type = AlertType.warning) ∧
    failedRun.ret = Ret.returned (dummyResult (fun _ => 0)) := by
  have hres : failedRun.store.results = some (dummyResult (fun _ => 0)) := rfl
  have halerts : failedRun.alerts =
      [⟨fallbackWarningMsg "Backend server is not available", AlertType.warning⟩,
       ⟨demoSuccessMsg, AlertType.success⟩] := rfl
  have htf : (dummyResult (fun _ => 0)).totalFrames = 100 := by
    simp [dummyResult, jsRandomInt_zero]
  refine ⟨hres, ?_, ?_, ?_, ?_, rfl⟩
  · intro hcon
    rw [hres] at hcon
    have heq : dummyResult (fun _ => 0) = prevResult := Option.some.inj hcon
    have h2 := congrArg AnalysisResult.totalFrames heq
    rw [htf] at h2
    exact absurd h2 (by decide)
  · intro hcon
    rw [hres] at hcon
    exact Option.noConfusion hcon
  · intro a ha
    rw [halerts] at ha
    simp only [List.mem_cons, List.not_mem_nil, or_false] at ha
    rcases ha with rfl | rfl
    · decide
    · decide
  · refine ⟨⟨fallbackWarningMsg "Backend server is not available", AlertType.warning⟩, ?_, rfl⟩
    rw [halerts]
    exact List.mem_cons_self _ _

/-- C4 amended: there is no fallback-disabled mode; every remote-call
failure triggers the fallback unconditionally — a warning alert naming the
failure reason, the fixed delay, a synthesized result replacing the
previous one, a final success alert — and the failure is not propagated to
the caller. -/
theorem claim_C4_amended_thm (m : String) (q : ℕ → ℚ) (s : HookStore) :
    analyzeVideoRun (some "true") (RemoteOutcome.err m) q s =
      { store := { loading := false
                   results := some (dummyResult q)
                   alert := some ⟨demoSuccessMsg, AlertType.success⟩ }
        effects := [Effect.remoteCall, Effect.delay 1500]
        alerts := [⟨fallbackWarningMsg m, AlertType.warning⟩,
                   ⟨demoSuccessMsg, AlertType.success⟩]
        ret := Ret.returned (dummyResult q) } := by
  unfold analyzeVideoRun
  rw [if_pos (show envIsTrue (some "true") from rfl)]

/-- C5: on a remote-call failure with the real API configured (the code's
fallback situation), the run awaits the fixed simulated latency and stores
a synthesized result whose `fps` is the default 30.0, whose `positions`
length is at most `totalFrames`, whose `positions` and `movementsPerFrame`
frame values are strictly increasing, and a warning alert naming the
failure reason is raised. -/
theorem claim_C5 (m : String) (q : ℕ → ℚ) (s : HookStore)
    (hq : ∀ k, 0 ≤ q k ∧ q k < 1) :
    Effect.delay 1500 ∈ (analyzeVideoRun (some "true") (RemoteOutcome.err m) q s).effects ∧
    (analyzeVideoRun (some "true") (RemoteOutcome.err m) q s).store.results =
      some (dummyResult q) ∧
    (dummyResult q).fps = some 30 ∧
    ((dummyResult q).positions.length : ℤ) ≤ (dummyResult q).totalFrames ∧
    List.Chain' (fun a b => a.frame < b.frame) (dummyResult q).positions ∧
    List.Chain' (fun a b => a.frame < b.frame) (dummyResult q).movementsPerFrame ∧
    Alert.mk (fallbackWarningMsg m) AlertType.warning ∈
      (analyzeVideoRun (some "true") (RemoteOutcome.err m) q s).alerts := by
  have hrun : analyzeVideoRun (some "true") (RemoteOutcome.err m) q s =
      { store := { loading := false
                   results := some (dummyResult q)
                   alert := some ⟨demoSuccessMsg, AlertType.success⟩ }
        effects := [Effect.remoteCall, Effect.delay 1500]
        alerts := [⟨fallbackWarningMsg m, AlertType.warning⟩,
                   ⟨demoSuccessMsg, AlertType.success⟩]
        ret := Ret.returned (dummyResult q) } := by
    unfold analyzeVideoRun
    rw [if_pos (show envIsTrue (some "true") from rfl)]
  rw [hrun]
  refine ⟨by simp, rfl, rfl, ?_, ?_, ?_, by simp⟩
  · have h50 : jsRandomInt (q 8) 50 < 50 := jsRandomInt_lt (q 8) 50 (hq 8).2 (by norm_num)
    have h500 : 0 ≤ jsRandomInt (q 0) 500 := jsRandomInt_nonneg (q 0) 500 (hq 0).1
    have hlen : (dummyResult q).positions.length =
        arrayFromLen (jsRandomInt (q 8) 50) + 10 := by
      simp [dummyResult, dummyPositions_length]
    have htf : (dummyResult q).totalFrames = jsRandomInt (q 0) 500 + 100 := by
      simp [dummyResult]
    rw [hlen, htf]
    unfold arrayFromLen
    omega
  · have hpos : (dummyResult q).positions =
        dummyPositions q 9 (arrayFromLen (jsRandomInt (q 8) 50) + 10) := by
      simp [dummyResult]
    rw [hpos]
    exact dummyPositions_chain q 9 _
  · have hmov : (dummyResult q).movementsPerFrame =
        dummyMovements q (9 + 4 * (arrayFromLen (jsRandomInt (q 8) 50) + 10) + 1)
          (arrayFromLen (jsRandomInt (q (9 + 4 * (arrayFromLen (jsRandomInt (q 8) 50) + 10))) 100) + 50) := by
      simp [dummyResult]
    rw [hmov]
    exact dummyMovements_chain q _ _

/-- Witness for C5 with a concrete failing remote call and the constant-0
random stream. -/
theorem claim_C5_witness :
    (∀ k : ℕ, 0 ≤ (fun _ : ℕ => (0 : ℚ)) k ∧ (fun _ : ℕ => (0 : ℚ)) k < 1) ∧
    (Effect.delay 1500 ∈
      (analyzeVideoRun (some "true") (RemoteOutcome.err "ECONNREFUSED") (fun _ : ℕ => (0 : ℚ)) emptyStore).effects ∧
     (analyzeVideoRun (some "true") (RemoteOutcome.err "ECONNREFUSED") (fun _ : ℕ => (0 : ℚ)) emptyStore).store.results =
       some (dummyResult (fun _ : ℕ => (0 : ℚ))) ∧
     (dummyResult (fun _ : ℕ => (0 : ℚ))).fps = some 30 ∧
     ((dummyResult (fun _ : ℕ => (0 : ℚ))).positions.length : ℤ) ≤
       (dummyResult (fun _ : ℕ => (0 : ℚ))).totalFrames ∧
     List.Chain' (fun a b => a.frame < b.frame) (dummyResult (fun _ : ℕ => (0 : ℚ))).positions ∧
     List.Chain' (fun a b => a.frame < b.frame) (dummyResult (fun _ : ℕ => (0 : ℚ))).movementsPerFrame ∧
     Alert.mk (fallbackWarningMsg "ECONNREFUSED") AlertType.warning ∈
       (analyzeVideoRun (some "true") (RemoteOutcome.err "ECONNREFUSED") (fun _ : ℕ => (0 : ℚ)) emptyStore).alerts) :=
  ⟨fun _ => ⟨le_refl 0, by norm_num⟩,
   claim_C5 "ECONNREFUSED" (fun _ : ℕ => (0 : ℚ)) emptyStore (fun _ => ⟨le_refl 0, by norm_num⟩)⟩

/-- C6: for a burst of inputs in which every input arrives within 300ms of
the previous one, exactly one commit fires — after the 300ms quiet period
that follows the last input — and it commits the last value of the burst;
each input replaced the single pending timer. -/
theorem claim_C6 (s₀ : SettingsState) (e : ℕ × ℚ) (es : List (ℕ × ℚ))
    (h₀ : s₀.debounceTimeout = none)
    (hburst : List.Chain (fun a b => b.1 < a.1 + 300) e es) :
    (runSettings s₀ (e :: es)).2 = [(es.getLastD e).2] ∧
    (runSettings s₀ (e :: es)).1.sensitivity = (es.getLastD e).2 ∧
    (runSettings s₀ (e :: es)).1.debounceTimeout = none := by
  unfold runSettings
  rw [List.foldl_cons]
  have hstep : debounceStep (s₀, []) e = (handleChange s₀ e.1 e.2, []) := by
    unfold debounceStep fireDue
    rw [h₀]
  rw [hstep]
  rw [burst_fold es e (handleChange s₀ e.1 e.2) [] rfl rfl hburst]
  unfold flushTimer
  simp [handleChange]

/-- Witness for C6: 10 sensitivity inputs fired 10ms apart commit exactly
once, with the last input's value. -/
theorem claim_C6_witness :
    settingsInit.debounceTimeout = none ∧
    List.Chain (fun a b => b.1 < a.1 + 300) burstHead burstTail ∧
    ((runSettings settingsInit (burstHead :: burstTail)).2 = [(burstTail.getLastD burstHead).2] ∧
     (runSettings settingsInit (burstHead :: burstTail)).1.sensitivity = (burstTail.getLastD burstHead).2 ∧
     (runSettings settingsInit (burstHead :: burstTail)).1.debounceTimeout = none) :=
  ⟨rfl, by norm_num [burstHead, burstTail, List.chain_cons],
   claim_C6 settingsInit burstHead burstTail rfl
     (by norm_num [burstHead, burstTail, List.chain_cons])⟩

end Fledermaus
